import Mathlib

/-!
Shallow embedding of the AWS RUM web client's XMLHttpRequest instrumentation
plugin (`src/plugins/event-plugins/XhrPlugin.ts`) and the anonymous Cognito
credential provider (`src/dispatch/BasicAuthentication.ts`), together with
theorems settling the specification claims about them.

Conventions of the embedding:
* JavaScript objects become Lean structures; in-place mutation becomes
  functional update.
* The per-plugin `xhrMap : Map<XMLHttpRequest, XhrDetails>` becomes an
  association list keyed by a numeric call identity.
* `context.record(type, payload)` becomes appending to a `recorded` list.
* Environmental inputs (the clock `epochTime()`, the user agent, random id
  generation, network responses) become explicit parameters.
-/

namespace RumWeb

/-- An HTTP response recorded on a trace subsegment:
`{ status, content_length? }` as written by `handleXhrLoadEvent`. -/
structure HttpResponse where
  status : Nat
  content_length : Option Int := none
deriving DecidableEq

/-- One exception inside a trace `cause`: `{ type, message? }`. -/
structure CauseException where
  type : String
  message : Option String := none
deriving DecidableEq

/-- The `cause` object attached to a subsegment on the failure paths. -/
structure Cause where
  exceptions : List CauseException
deriving DecidableEq

/-- The request half of a subsegment's `http` object, as built by
`initializeTrace`: `{ method, url, traced }`. -/
structure HttpRequestInfo where
  method : String
  url : String
  traced : Bool
deriving DecidableEq

/-- A subsegment's `http` object: the request info plus, after the load
path runs, a response. -/
structure SubsegmentHttp where
  request : HttpRequestInfo
  response : Option HttpResponse := none
deriving DecidableEq

/-- An X-Ray trace subsegment. Fields follow the spec's data model (§3);
times are abstract clock readings. -/
structure Subsegment where
  id : String
  name : String
  start_time : Nat
  end_time : Option Nat := none
  nameSpace : String := "remote"
  http : SubsegmentHttp
  error : Bool := false
  fault : Bool := false
  throttle : Bool := false
  cause : Option Cause := none
deriving DecidableEq

/-- An X-Ray trace event: root segment fields plus the subsegment list
(this plugin always produces exactly one subsegment). -/
structure XRayTraceEvent where
  name : String
  trace_id : String
  id : String
  start_time : Nat
  end_time : Option Nat := none
  error : Bool := false
  fault : Bool := false
  throttle : Bool := false
  subsegments : List Subsegment := []
deriving DecidableEq

/-- The state of an `XMLHttpRequest` object as observed by the handlers:
a numeric identity (the map key), the HTTP status, the status text, and
the value of the `Content-Length` response header when present. -/
structure Xhr where
  id : Nat
  status : Nat
  statusText : String
  contentLengthHeader : Option String := none
deriving DecidableEq

/-- Per-call state held in `xhrMap`: `{ method, url, async, trace? }`. -/
structure XhrDetails where
  method : String
  url : String
  async : Bool
  trace : Option XRayTraceEvent := none
deriving DecidableEq

/-- The session object returned by `context.getSession()`. -/
structure Session where
  record : Bool
deriving DecidableEq

/-- The subset of the event-sink context configuration the plugin reads. -/
structure ContextConfig where
  enableXRay : Bool
  enableW3CTraceId : Bool
deriving DecidableEq

/-- Modelled from the spec: the `addXRayTraceIdHeader` configuration value
(from `plugins/utils/http-utils.ts`, absent from the sources) is per §6 a
"header-injection pattern list or boolean". -/
inductive TraceHeaderSetting where
  | flag (b : Bool)
  | urls (patterns : List String)
deriving DecidableEq

/-- The subset of `HttpPluginConfig` the XHR plugin reads. -/
structure HttpPluginConfig where
  recordAllRequests : Bool
  addXRayTraceIdHeader : TraceHeaderSetting
  logicalServiceName : String
  stackTraceLength : Nat
deriving DecidableEq

/-- The request half of an emitted HTTP event. -/
structure HttpEventRequest where
  method : String
  url : String
deriving DecidableEq

/-- The response half of an emitted HTTP event. -/
structure HttpEventResponse where
  status : Nat
  statusText : String
deriving DecidableEq

/-- Modelled from the spec: the JS error shape produced by
`errorEventToJsErrorEvent` (`plugins/utils/js-error-utils.ts`, absent from
the sources); §3 gives `error{type,message,stack?}`. -/
structure JsErrorEvent where
  type : String
  message : String
  stack : Option String := none
deriving DecidableEq

/-- An emitted HTTP event: `version`, `request`, and either `response`
(load path) or `error` (failure paths); trace ids attached only when
tracing is enabled. -/
structure HttpEvent where
  version : String
  request : HttpEventRequest
  response : Option HttpEventResponse := none
  error : Option JsErrorEvent := none
  trace_id : Option String := none
  segment_id : Option String := none
deriving DecidableEq

/-- An event passed to `context.record`, tagged by event type. -/
inductive Recorded where
  | http (e : HttpEvent)
  | xray (t : XRayTraceEvent)
deriving DecidableEq

/-- The mutable state the plugin instance threads through a call's
lifetime: the in-flight map and the list of recorded events. -/
structure PluginState where
  xhrMap : List (Nat × XhrDetails)
  recorded : List Recorded
deriving DecidableEq

/-- The plugin instance's immutable inputs during one call: its config,
the context config, the current `getSession()` answer, and the synthetic
user-agent flag computed in the constructor. -/
structure Plugin where
  config : HttpPluginConfig
  contextConfig : ContextConfig
  getSession : Option Session
  isSyntheticsUA : Bool
deriving DecidableEq

/-- Lookup in the in-flight map (`xhrMap.get`). -/
def mapGet (m : List (Nat × XhrDetails)) (k : Nat) : Option XhrDetails :=
  (m.find? (fun p => p.1 == k)).map (fun p => p.2)

/-- Deletion from the in-flight map (`xhrMap.delete`). -/
def mapDelete (m : List (Nat × XhrDetails)) (k : Nat) : List (Nat × XhrDetails) :=
  m.filter (fun p => p.1 != k)

/-- Insertion/overwrite in the in-flight map (`xhrMap.set`). -/
def mapSet (m : List (Nat × XhrDetails)) (k : Nat) (v : XhrDetails) : List (Nat × XhrDetails) :=
  (k, v) :: mapDelete m k

/-- Modelled from the spec: `is429` from `plugins/utils/http-utils.ts`
(absent from the sources); §4.2 gives `status==429 → throttle`. -/
def is429 (status : Nat) : Bool :=
  status == 429

/-- Modelled from the spec: `is4xx` from `plugins/utils/http-utils.ts`
(absent from the sources); §4.2 gives `400<=status<500 → error`. -/
def is4xx (status : Nat) : Bool :=
  decide (400 ≤ status ∧ status < 500)

/-- Modelled from the spec: `is5xx` from `plugins/utils/http-utils.ts`
(absent from the sources); §4.2 gives `500<=status<600 → fault`. -/
def is5xx (status : Nat) : Bool :=
  decide (500 ≤ status ∧ status < 600)

/-- Modelled from the spec: the legacy trace-header wire name from
`plugins/utils/http-utils.ts` (absent from the sources); §6 gives
"legacy `X-Amzn-Trace-Id`". -/
def X_AMZN_TRACE_ID : String := "X-Amzn-Trace-Id"

/-- Modelled from the spec: the W3C trace-header wire name from
`plugins/utils/http-utils.ts` (absent from the sources); §6 gives
"W3C `traceparent`". -/
def W3C_TRACEPARENT_HEADER_NAME : String := "traceparent"

/-- Modelled from the spec: `getAmznTraceIdHeaderValue` from
`plugins/utils/http-utils.ts` (absent from the sources); §3 gives the
legacy format `Root=...;Parent=...;Sampled=1`. -/
def getAmznTraceIdHeaderValue (traceId segmentId : String) : String :=
  "Root=" ++ traceId ++ ";Parent=" ++ segmentId ++ ";Sampled=1"

/-- Modelled from the spec: `getW3CTraceIdHeaderValue` from
`plugins/utils/http-utils.ts` (absent from the sources); §3 gives the W3C
format `<version>-<trace id>-<parent id>-<flags>`. -/
def getW3CTraceIdHeaderValue (traceId segmentId : String) : String :=
  "00-" ++ traceId ++ "-" ++ segmentId ++ "-01"

/-- Modelled from the spec: `isTraceIdHeaderEnabled` from
`plugins/utils/http-utils.ts` (absent from the sources); §4.2 gives a
"feature flag for header injection matching the URL by regex list", §6 a
"header-injection pattern list or boolean". Pattern match is modelled as
substring containment. -/
def isTraceIdHeaderEnabled (url : String) : TraceHeaderSetting → Bool
  | .flag b => b
  | .urls patterns =>
      patterns.any (fun pat =>
        (List.range (url.length + 1)).any (fun i =>
          pat.toList.isPrefixOf (url.toList.drop i)))

/-- Modelled from the spec: `requestInfoToHostname` from
`plugins/utils/http-utils.ts` (absent from the sources); §3 names the
subsegment by the "remote hostname": drop the scheme, keep up to `/`. -/
def requestInfoToHostname (url : String) : String :=
  let afterScheme :=
    match url.splitOn "://" with
    | _ :: rest :: _ => rest
    | _ => url
  match afterScheme.splitOn "/" with
  | host :: _ => host
  | [] => afterScheme

/-- Modelled from the spec: `createXRayTraceEvent` from
`plugins/utils/http-utils.ts` (absent from the sources); §4.1 `newTrace`
allocates a fresh trace id and root segment id, sets the root
`start_time`, and starts with no subsegments. Id allocation is modelled
by passing the generated ids explicitly. -/
def createXRayTraceEvent (name : String) (startTime : Nat)
    (traceId segmentId : String) : XRayTraceEvent :=
  { name := name
    trace_id := traceId
    id := segmentId
    start_time := startTime }

/-- Modelled from the spec: `createXRaySubsegment` from
`plugins/utils/http-utils.ts` (absent from the sources); §4.1
`newSubsegment` allocates a child id, sets `namespace="remote"`, and
stores the request method/url with a `traced=true` marker. -/
def createXRaySubsegment (name : String) (startTime : Nat) (subId : String)
    (request : HttpRequestInfo) : Subsegment :=
  { id := subId
    name := name
    start_time := startTime
    http := { request := request } }

/-- Modelled from the spec: a JS `parseInt(s, 10)` returning `none` for
`NaN`; used for the `Content-Length` header value. Leading whitespace
then an optional sign then leading digits; `NaN` when no digit leads. -/
def parseDecimal (s : String) : Option Int :=
  let chars := s.toList.dropWhile (fun c => c == ' ')
  let signAndRest : (Int → Int) × List Char :=
    match chars with
    | '-' :: rest => (fun n => -n, rest)
    | '+' :: rest => (fun n => n, rest)
    | rest => (fun n => n, rest)
  let digits := signAndRest.2.takeWhile Char.isDigit
  if digits.isEmpty then
    none
  else
    some (signAndRest.1 (Int.ofNat (digits.foldl (fun acc c => acc * 10 + (c.toNat - 48)) 0)))

/-- Modelled from the spec: `errorEventToJsErrorEvent` from
`plugins/utils/js-error-utils.ts` (absent from the sources); §3 gives the
HTTP event `error{type,message,stack?}` shape. The argument mirrors the
`Error | string | ...` union accepted by `recordHttpEventWithError`. -/
inductive ErrorLike where
  | str (s : String)
  | err (name message : String)
deriving DecidableEq

/-- Modelled from the spec: converts the caught value into the HTTP
event's `error{type,message}` object (stack handling is irrelevant here:
neither `XhrError` nor a plain string carries a stack). -/
def errorEventToJsErrorEvent (e : ErrorLike) (_stackTraceLength : Nat) : JsErrorEvent :=
  match e with
  | .str s => { type := s, message := "" }
  | .err name message => { type := name, message := message }

/-- `isTracingEnabled` (XhrPlugin.ts lines 135-137):
`this.context.config.enableXRay`. -/
def Plugin.isTracingEnabled (p : Plugin) : Bool :=
  p.contextConfig.enableXRay

/-- `isSessionRecorded` (XhrPlugin.ts lines 139-141):
`this.context.getSession()?.record || false`. -/
def Plugin.isSessionRecorded (p : Plugin) : Bool :=
  match p.getSession with
  | some s => s.record
  | none => false

/-- `statusOk` (XhrPlugin.ts lines 251-253):
`status >= 200 && status < 300`. -/
def statusOk (status : Nat) : Bool :=
  decide (200 ≤ status ∧ status < 300)

/-- Applies an update to `subsegments[0]`, the single subsegment this
plugin creates (the source accesses it as `trace!.subsegments![0]`). -/
def updateSub0 (t : XRayTraceEvent) (f : Subsegment → Subsegment) : XRayTraceEvent :=
  { t with subsegments :=
      match t.subsegments with
      | [] => []
      | s :: rest => f s :: rest }

/-- `recordTraceEvent` (XhrPlugin.ts lines 298-306): records the trace
only when the user agent is not synthetic, tracing is enabled, and the
session is recorded. -/
def recordTraceEvent (p : Plugin) (trace : XRayTraceEvent) (st : PluginState) : PluginState :=
  if !p.isSyntheticsUA && p.isTracingEnabled && p.isSessionRecorded then
    { st with recorded := st.recorded ++ [.xray trace] }
  else
    st

/-- `recordHttpEventWithResponse` (XhrPlugin.ts lines 255-272): deletes
the call from the map, builds the HTTP event with the response, attaches
trace ids when tracing is enabled, and records it only when
`recordAllRequests` is set or the status is not OK. -/
def recordHttpEventWithResponse (p : Plugin) (xhrDetails : XhrDetails) (xhr : Xhr)
    (st : PluginState) : PluginState :=
  let st1 : PluginState := { st with xhrMap := mapDelete st.xhrMap xhr.id }
  let base : HttpEvent :=
    { version := "1.0.0"
      request := { method := xhrDetails.method, url := xhrDetails.url }
      response := some { status := xhr.status, statusText := xhr.statusText } }
  let httpEvent : HttpEvent :=
    if p.isTracingEnabled then
      { base with
          trace_id := xhrDetails.trace.map (fun t => t.trace_id)
          segment_id := xhrDetails.trace.bind (fun t => t.subsegments.head?.map (fun s => s.id)) }
    else
      base
  if p.config.recordAllRequests || !statusOk xhr.status then
    { st1 with recorded := st1.recorded ++ [.http httpEvent] }
  else
    st1

/-- `recordHttpEventWithError` (XhrPlugin.ts lines 274-296): deletes the
call from the map, builds the HTTP event with an error object, attaches
trace ids when tracing is enabled, and always records it. -/
def recordHttpEventWithError (p : Plugin) (xhrDetails : XhrDetails) (xhr : Xhr)
    (error : ErrorLike) (st : PluginState) : PluginState :=
  let st1 : PluginState := { st with xhrMap := mapDelete st.xhrMap xhr.id }
  let base : HttpEvent :=
    { version := "1.0.0"
      request := { method := xhrDetails.method, url := xhrDetails.url }
      error := some (errorEventToJsErrorEvent error p.config.stackTraceLength) }
  let httpEvent : HttpEvent :=
    if p.isTracingEnabled then
      { base with
          trace_id := xhrDetails.trace.map (fun t => t.trace_id)
          segment_id := xhrDetails.trace.bind (fun t => t.subsegments.head?.map (fun s => s.id)) }
    else
      base
  { st1 with recorded := st1.recorded ++ [.http httpEvent] }

/-- The trace mutations of `handleXhrLoadEvent` (XhrPlugin.ts lines
147-170): stamp end times, set the response, classify the status with
the `is429 / is4xx / is5xx` else-if chain on both the subsegment and the
trace root, and attach a parseable `Content-Length`. -/
def loadUpdatedTrace (tr : XRayTraceEvent) (xhr : Xhr) (endTime : Nat) : XRayTraceEvent :=
  let tr1 : XRayTraceEvent := { tr with end_time := some endTime }
  let tr2 := updateSub0 tr1 (fun s =>
    { s with
        end_time := some endTime
        http := { s.http with response := some { status := xhr.status } } })
  let tr3 :=
    if is429 xhr.status then
      { updateSub0 tr2 (fun s => { s with throttle := true }) with throttle := true }
    else if is4xx xhr.status then
      { updateSub0 tr2 (fun s => { s with error := true }) with error := true }
    else if is5xx xhr.status then
      { updateSub0 tr2 (fun s => { s with fault := true }) with fault := true }
    else
      tr2
  match xhr.contentLengthHeader with
  | none => tr3
  | some clStr =>
      match parseDecimal clStr with
      | none => tr3
      | some cl =>
          updateSub0 tr3 (fun s =>
            { s with http := { s.http with
                response := s.http.response.map (fun r => { r with content_length := some cl }) } })

/-- The trace mutations of `handleXhrErrorEvent` (XhrPlugin.ts lines
184-200): stamp end times, set `fault` on the trace root and the
subsegment, and attach a cause with the error name and message. -/
def errorUpdatedTrace (tr : XRayTraceEvent) (errorName errorMessage : String)
    (endTime : Nat) : XRayTraceEvent :=
  let tr1 : XRayTraceEvent := { tr with fault := true, end_time := some endTime }
  updateSub0 tr1 (fun s =>
    { s with
        end_time := some endTime
        fault := true
        cause := some { exceptions := [{ type := errorName, message := some errorMessage }] } })

/-- The trace mutations of `handleXhrDetailsOnError` (XhrPlugin.ts lines
235-245): stamp end times, set `error` on the subsegment, and attach a
cause with the error name only. -/
def detailsOnErrorTrace (tr : XRayTraceEvent) (errorName : String)
    (endTime : Nat) : XRayTraceEvent :=
  let tr1 : XRayTraceEvent := { tr with end_time := some endTime }
  updateSub0 tr1 (fun s =>
    { s with
        end_time := some endTime
        error := true
        cause := some { exceptions := [{ type := errorName }] } })

/-- `handleXhrLoadEvent` (XhrPlugin.ts lines 143-174). The JS mutates
`xhrDetails.trace` in place; here the updated details are passed on
explicitly. A missing record is a no-op (`if (xhrDetails)`); `trace!` is
only dereferenced when present, as in the live flow. -/
def handleXhrLoadEvent (p : Plugin) (xhr : Xhr) (endTime : Nat)
    (st : PluginState) : PluginState :=
  match mapGet st.xhrMap xhr.id with
  | none => st
  | some xhrDetails =>
      match xhrDetails.trace with
      | none => st
      | some tr =>
          let tr := loadUpdatedTrace tr xhr endTime
          let xhrDetails : XhrDetails := { xhrDetails with trace := some tr }
          let st := recordTraceEvent p tr st
          recordHttpEventWithResponse p xhrDetails xhr st

/-- The `errorMessage` computed by `handleXhrErrorEvent` (XhrPlugin.ts
lines 180-182): `xhr.statusText ? xhr.status + ': ' + xhr.statusText :
xhr.status.toString()` — the empty status text is falsy. -/
def xhrErrorMessage (xhr : Xhr) : String :=
  if xhr.statusText.isEmpty then
    toString xhr.status
  else
    toString xhr.status ++ ": " ++ xhr.statusText

/-- `handleXhrErrorEvent` (XhrPlugin.ts lines 176-208). The error message
is the status alone when `statusText` is empty (falsy), otherwise
`"<status>: <statusText>"`; the HTTP event carries a `new XhrError(errorMessage)`. -/
def handleXhrErrorEvent (p : Plugin) (xhr : Xhr) (endTime : Nat)
    (st : PluginState) : PluginState :=
  let errorName := "XMLHttpRequest error"
  let errorMessage := xhrErrorMessage xhr
  match mapGet st.xhrMap xhr.id with
  | none => st
  | some xhrDetails =>
      match xhrDetails.trace with
      | none => st
      | some tr =>
          let tr := errorUpdatedTrace tr errorName errorMessage endTime
          let xhrDetails : XhrDetails := { xhrDetails with trace := some tr }
          let st := recordTraceEvent p tr st
          recordHttpEventWithError p xhrDetails xhr (.err "XhrError" errorMessage) st

/-- `handleXhrDetailsOnError` (XhrPlugin.ts lines 229-249), shared by the
abort and timeout handlers. -/
def handleXhrDetailsOnError (p : Plugin) (xhrDetailsOpt : Option XhrDetails) (xhr : Xhr)
    (errorName : String) (endTime : Nat) (st : PluginState) : PluginState :=
  match xhrDetailsOpt with
  | none => st
  | some xhrDetails =>
      match xhrDetails.trace with
      | none => st
      | some tr =>
          let tr := detailsOnErrorTrace tr errorName endTime
          let xhrDetails : XhrDetails := { xhrDetails with trace := some tr }
          let st := recordTraceEvent p tr st
          recordHttpEventWithError p xhrDetails xhr (.str errorName) st

/-- `handleXhrAbortEvent` (XhrPlugin.ts lines 210-220). -/
def handleXhrAbortEvent (p : Plugin) (xhr : Xhr) (endTime : Nat)
    (st : PluginState) : PluginState :=
  match mapGet st.xhrMap xhr.id with
  | none => st
  | some xhrDetails =>
      handleXhrDetailsOnError p (some xhrDetails) xhr "XMLHttpRequest abort" endTime st

/-- `handleXhrTimeoutEvent` (XhrPlugin.ts lines 222-227). -/
def handleXhrTimeoutEvent (p : Plugin) (xhr : Xhr) (endTime : Nat)
    (st : PluginState) : PluginState :=
  handleXhrDetailsOnError p (mapGet st.xhrMap xhr.id) xhr "XMLHttpRequest timeout" endTime st

/-- The four XHR completion signals the plugin subscribes to. -/
inductive XhrSignal where
  | load
  | error
  | abort
  | timeout
deriving DecidableEq

/-- Dispatch of one completion signal to its handler. -/
def handleSignal (p : Plugin) (sig : XhrSignal) (xhr : Xhr) (endTime : Nat)
    (st : PluginState) : PluginState :=
  match sig with
  | .load => handleXhrLoadEvent p xhr endTime st
  | .error => handleXhrErrorEvent p xhr endTime st
  | .abort => handleXhrAbortEvent p xhr endTime st
  | .timeout => handleXhrTimeoutEvent p xhr endTime st

/-- `initializeTrace` (XhrPlugin.ts lines 308-328): creates the trace and
pushes the single subsegment carrying the request info with
`traced: true`. Generated ids are passed explicitly. -/
def initializeTrace (p : Plugin) (xhrDetails : XhrDetails) (startTime : Nat)
    (traceId rootId subId : String) : XhrDetails :=
  let tr := createXRayTraceEvent p.config.logicalServiceName startTime traceId rootId
  let sub := createXRaySubsegment (requestInfoToHostname xhrDetails.url) startTime subId
    { method := xhrDetails.method, url := xhrDetails.url, traced := true }
  { xhrDetails with trace := some { tr with subsegments := tr.subsegments ++ [sub] } }

/-- The outcome of the `send` wrapper: the updated plugin state and the
request headers set by `setRequestHeader` during this call. -/
structure SendResult where
  st : PluginState
  headersSet : List (String × String)
deriving DecidableEq

/-- `sendWrapper` (XhrPlugin.ts lines 330-374): when the call is tracked,
initializes the trace and injects at most one trace header, gated by the
synthetic-agent flag, global tracing, the header-injection setting for
the URL, and session recording; the W3C flag picks which header. -/
def sendWrapper (p : Plugin) (xhrId : Nat) (startTime : Nat)
    (traceId rootId subId : String) (st : PluginState) : SendResult :=
  match mapGet st.xhrMap xhrId with
  | none => { st := st, headersSet := [] }
  | some xhrDetails =>
      let xhrDetails := initializeTrace p xhrDetails startTime traceId rootId subId
      let st1 : PluginState := { st with xhrMap := mapSet st.xhrMap xhrId xhrDetails }
      let trTraceId := (xhrDetails.trace.map (fun t => t.trace_id)).getD ""
      let trSubId :=
        ((xhrDetails.trace.bind (fun t => t.subsegments.head?)).map (fun s => s.id)).getD ""
      let headers :=
        if !p.isSyntheticsUA && p.isTracingEnabled &&
            isTraceIdHeaderEnabled xhrDetails.url p.config.addXRayTraceIdHeader &&
            p.isSessionRecorded then
          if p.contextConfig.enableW3CTraceId then
            [(W3C_TRACEPARENT_HEADER_NAME, getW3CTraceIdHeaderValue trTraceId trSubId)]
          else
            [(X_AMZN_TRACE_ID, getAmznTraceIdHeaderValue trTraceId trSubId)]
        else
          []
      { st := st1, headersSet := headers }

/-- Count of HTTP events among the recorded events. -/
def countHttp (l : List Recorded) : Nat :=
  (l.filter (fun r => match r with | .http _ => true | .xray _ => false)).length

/-- Count of X-Ray trace events among the recorded events. -/
def countXray (l : List Recorded) : Nat :=
  (l.filter (fun r => match r with | .http _ => false | .xray _ => true)).length

/-- Response of `cognitoIdentityClient.getId`. -/
structure GetIdResponse where
  IdentityId : String
deriving DecidableEq

/-- Response of `cognitoIdentityClient.getOpenIdToken`. -/
structure GetOpenIdTokenResponse where
  Token : String
deriving DecidableEq

/-- Temporary AWS credentials returned by the federation exchange. -/
structure Credentials where
  accessKeyId : String
  secretAccessKey : String
  sessionToken : String
  expiration : Nat
deriving DecidableEq

/-- The environment of one credential acquisition: the outcome of each of
the three network steps and of the `localStorage.setItem` call, indexed
by the attempt number (0-based). The clients themselves are external
collaborators (spec §6); only their per-attempt outcomes matter here. -/
structure CognitoEnv where
  getId : Nat → Except String GetIdResponse
  getOpenIdToken : Nat → GetIdResponse → Except String GetOpenIdTokenResponse
  assumeRoleWithWebIdentity : Nat → String → Except String Credentials
  setItemThrows : Nat → Bool

/-- The provider's stored state: the in-memory `this.credentials` field
and the persisted local-storage entry under `credentialStorageKey`. -/
structure AuthState where
  credentials : Option Credentials := none
  localStore : Option String := none
deriving DecidableEq

/-- Modelled from the spec: `JSON.stringify(credentials)` is host
behavior; modelled as an injective textual rendering (braces omitted). -/
def serializeCredentials (c : Credentials) : String :=
  "accessKeyId:" ++ c.accessKeyId ++ ",secretAccessKey:" ++ c.secretAccessKey ++
    ",sessionToken:" ++ c.sessionToken ++ ",expiration:" ++ toString c.expiration

/-- One iteration of the `while (true)` body of
`AnonymousCognitoCredentialsProvider` (BasicAuthentication.ts lines
31-60): run the three-step exchange for attempt `n`; on success store the
credentials in memory, best-effort persist them (a throwing
`localStorage.setItem` is swallowed), and return them; any step's failure
leaves the state untouched and surfaces the error to the retry logic. -/
def attemptOnce (env : CognitoEnv) (n : Nat) (st : AuthState) :
    Except String Credentials × AuthState :=
  match env.getId n with
  | .error e => (.error e, st)
  | .ok getIdResponse =>
      match env.getOpenIdToken n getIdResponse with
      | .error e => (.error e, st)
      | .ok getOpenIdTokenResponse =>
          match env.assumeRoleWithWebIdentity n getOpenIdTokenResponse.Token with
          | .error e => (.error e, st)
          | .ok credentials =>
              let st1 : AuthState := { st with credentials := some credentials }
              let st2 : AuthState :=
                if env.setItemThrows n then
                  st1
                else
                  { st1 with localStore := some (serializeCredentials credentials) }
              (.ok credentials, st2)

/-- The retry loop of `AnonymousCognitoCredentialsProvider`
(BasicAuthentication.ts lines 29-68): `retries` starts at 1; a failed
attempt decrements it when positive and retries, otherwise rethrows. The
final component counts the attempts actually made. -/
def providerLoop (env : CognitoEnv) : Nat → Nat → AuthState →
    Except String Credentials × AuthState × Nat
  | retries, n, st =>
      match attemptOnce env n st with
      | (.ok credentials, st1) => (.ok credentials, st1, 1)
      | (.error e, st1) =>
          match retries with
          | 0 => (.error e, st1, 1)
          | r + 1 =>
              let rec_ := providerLoop env r (n + 1) st1
              (rec_.1, rec_.2.1, rec_.2.2 + 1)

/-- `AnonymousCognitoCredentialsProvider` (BasicAuthentication.ts lines
27-69): the full acquisition with `let retries = 1`. Returns the result,
the final stored state, and the number of attempts made. -/
def AnonymousCognitoCredentialsProvider (env : CognitoEnv) (st : AuthState) :
    Except String Credentials × AuthState × Nat :=
  providerLoop env 1 0 st

/-- The gate of `recordTraceEvent`: not a synthetic agent, tracing
enabled, session recorded. -/
def traceGate (p : Plugin) : Bool :=
  !p.isSyntheticsUA && p.isTracingEnabled && p.isSessionRecorded

/-- Whether one completion signal leads to a recorded HTTP event: the
failure handlers always record; the load handler records only when
`recordAllRequests` is set or the status is not OK. -/
def emitsHttp (p : Plugin) (sig : XhrSignal) (xhr : Xhr) : Bool :=
  match sig with
  | .load => p.config.recordAllRequests || !statusOk xhr.status
  | _ => true

/-- The trace value each completion handler builds from the stored trace
before recording it. -/
def sigTrace (sig : XhrSignal) (xhr : Xhr) (endTime : Nat) (tr : XRayTraceEvent) :
    XRayTraceEvent :=
  match sig with
  | .load => loadUpdatedTrace tr xhr endTime
  | .error => errorUpdatedTrace tr "XMLHttpRequest error" (xhrErrorMessage xhr) endTime
  | .abort => detailsOnErrorTrace tr "XMLHttpRequest abort" endTime
  | .timeout => detailsOnErrorTrace tr "XMLHttpRequest timeout" endTime

/-- The `ErrorLike` value each failure handler passes to
`recordHttpEventWithError`. -/
def sigError (sig : XhrSignal) (xhr : Xhr) : ErrorLike :=
  match sig with
  | .load => .str ""
  | .error => .err "XhrError" (xhrErrorMessage xhr)
  | .abort => .str "XMLHttpRequest abort"
  | .timeout => .str "XMLHttpRequest timeout"

/-- The HTTP event each completion handler builds for a tracked call
whose stored (already updated) trace is `tr`. -/
def sigHttpEvent (p : Plugin) (sig : XhrSignal) (xhr : Xhr) (d : XhrDetails)
    (tr : XRayTraceEvent) : HttpEvent :=
  let base : HttpEvent :=
    match sig with
    | .load =>
        { version := "1.0.0"
          request := { method := d.method, url := d.url }
          response := some { status := xhr.status, statusText := xhr.statusText } }
    | _ =>
        { version := "1.0.0"
          request := { method := d.method, url := d.url }
          error := some (errorEventToJsErrorEvent (sigError sig xhr) p.config.stackTraceLength) }
  if p.isTracingEnabled then
    { base with
        trace_id := some tr.trace_id
        segment_id := tr.subsegments.head?.map (fun s => s.id) }
  else
    base

/-- Environment in which every `getId` call fails. -/
def envAllFail : CognitoEnv :=
  { getId := fun _ => .error "getId failed"
    getOpenIdToken := fun _ _ => .error "getOpenIdToken failed"
    assumeRoleWithWebIdentity := fun _ _ => .error "assumeRole failed"
    setItemThrows := fun _ => false }

/-- The credentials used by the concrete success witnesses. -/
def witnessCredentials : Credentials :=
  { accessKeyId := "AKID"
    secretAccessKey := "SECRET"
    sessionToken := "TOKEN"
    expiration := 1000 }

/-- Environment in which every step succeeds and `setItem` never throws. -/
def envAllOk : CognitoEnv :=
  { getId := fun _ => .ok { IdentityId := "id-1" }
    getOpenIdToken := fun _ _ => .ok { Token := "tok-1" }
    assumeRoleWithWebIdentity := fun _ _ => .ok witnessCredentials
    setItemThrows := fun _ => false }

/-- A concrete plugin used by the concrete completion-path theorems:
`recordAllRequests` disabled, tracing disabled, session recorded, not a
synthetic agent. -/
def cxPlugin : Plugin :=
  { config :=
      { recordAllRequests := false
        addXRayTraceIdHeader := .flag false
        logicalServiceName := "rum"
        stackTraceLength := 200 }
    contextConfig := { enableXRay := false, enableW3CTraceId := false }
    getSession := some { record := true }
    isSyntheticsUA := false }

/-- A concrete XHR that completed with a 200 OK response. -/
def cxXhr : Xhr :=
  { id := 0, status := 200, statusText := "OK" }

/-- A concrete tracked call with its trace initialized by `sendWrapper`. -/
def cxDetails : XhrDetails :=
  initializeTrace cxPlugin
    { method := "GET", url := "https://aws.amazon.com/", async := true }
    0 "trace-1" "root-1" "sub-1"

/-- A concrete plugin state holding the single in-flight call. -/
def cxState : PluginState :=
  { xhrMap := [(0, cxDetails)], recorded := [] }

/-- The `content_length` value the load handler ends up writing: the
`Content-Length` header parsed as a decimal integer when both exist. -/
def contentLengthOf (xhr : Xhr) : Option Int :=
  xhr.contentLengthHeader.bind parseDecimal

/-- A concrete fresh subsegment, as `initializeTrace` creates it. -/
def cxSub : Subsegment :=
  createXRaySubsegment "aws.amazon.com" 0 "sub-1"
    { method := "GET", url := "https://aws.amazon.com/", traced := true }

/-- A concrete fresh trace holding `cxSub` as its single subsegment. -/
def cxTrace : XRayTraceEvent :=
  { createXRayTraceEvent "rum" 0 "trace-1" "root-1" with subsegments := [cxSub] }

/-- A concrete XHR that completed with a 429 response. -/
def cx429Xhr : Xhr :=
  { id := 0, status := 429, statusText := "Too Many Requests" }

/-- A concrete plugin with every trace gate open: tracing enabled,
session recorded, not synthetic. -/
def gwPlugin : Plugin :=
  { config :=
      { recordAllRequests := true
        addXRayTraceIdHeader := .flag true
        logicalServiceName := "rum"
        stackTraceLength := 200 }
    contextConfig := { enableXRay := true, enableW3CTraceId := false }
    getSession := some { record := true }
    isSyntheticsUA := false }

/-- A concrete tracked call for the gated plugin, trace initialized. -/
def gwDetails : XhrDetails :=
  initializeTrace gwPlugin
    { method := "GET", url := "https://aws.amazon.com/", async := true }
    0 "trace-1" "root-1" "sub-1"

/-- A concrete state for the gated plugin with one in-flight call. -/
def gwState : PluginState :=
  { xhrMap := [(0, gwDetails)], recorded := [] }

/-- Deleting a key removes it from the in-flight map. -/
theorem mapGet_mapDelete_self (m : List (Nat × XhrDetails)) (k : Nat) :
    mapGet (mapDelete m k) k = none := by
  have hall : ∀ x ∈ m.filter (fun p => p.1 != k), ¬ (x.1 == k) = true := by
    intro x hx
    have := List.of_mem_filter hx
    simpa using this
  simp [mapGet, mapDelete, List.find?_eq_none.mpr hall]

/-- A completion signal for a call that is not in the in-flight map is a
no-op: every handler checks `if (xhrDetails)` first. -/
theorem handleSignal_untracked (p : Plugin) (sig : XhrSignal) (xhr : Xhr) (endTime : Nat)
    (st : PluginState) (h : mapGet st.xhrMap xhr.id = none) :
    handleSignal p sig xhr endTime st = st := by
  cases sig <;>
    simp [handleSignal, handleXhrLoadEvent, handleXhrErrorEvent, handleXhrAbortEvent,
      handleXhrTimeoutEvent, handleXhrDetailsOnError, h]

/-- Characterization of one handled completion signal for a tracked call
with an initialized trace: the record is deleted, one trace event is
appended when the trace gate passes, and one HTTP event is appended when
the emission policy passes. -/
theorem handleSignal_tracked_eq (p : Plugin) (sig : XhrSignal) (xhr : Xhr) (endTime : Nat)
    (st : PluginState) (d : XhrDetails) (tr : XRayTraceEvent)
    (hm : mapGet st.xhrMap xhr.id = some d) (ht : d.trace = some tr) :
    handleSignal p sig xhr endTime st =
      { xhrMap := mapDelete st.xhrMap xhr.id
        recorded := st.recorded
          ++ (if traceGate p then [Recorded.xray (sigTrace sig xhr endTime tr)] else [])
          ++ (if emitsHttp p sig xhr then
                [Recorded.http
                  (sigHttpEvent p sig xhr d (sigTrace sig xhr endTime tr))]
              else
                []) } := by
  cases sig <;>
    simp only [handleSignal, handleXhrLoadEvent, handleXhrErrorEvent, handleXhrAbortEvent,
      handleXhrTimeoutEvent, handleXhrDetailsOnError, hm, ht, recordTraceEvent,
      recordHttpEventWithResponse, recordHttpEventWithError, traceGate, emitsHttp,
      sigTrace, sigHttpEvent, sigError] <;>
    by_cases hsy : p.isSyntheticsUA <;>
    by_cases hsr : p.isSessionRecorded <;>
    by_cases hT : p.isTracingEnabled <;>
    by_cases hE : p.config.recordAllRequests <;>
    by_cases hok : statusOk xhr.status <;>
    simp_all [List.append_assoc]

/-- Closed form of the load handler's trace update on a trace with a
single subsegment. The classification chain writes `true` into exactly
the flag selected by the status, modelled here with `||` so the prior
flag value is preserved. -/
theorem loadUpdatedTrace_eq (tr : XRayTraceEvent) (s0 : Subsegment) (xhr : Xhr)
    (endTime : Nat) (hs : tr.subsegments = [s0]) :
    loadUpdatedTrace tr xhr endTime =
      { tr with
          end_time := some endTime
          throttle := tr.throttle || is429 xhr.status
          error := tr.error || (!is429 xhr.status && is4xx xhr.status)
          fault := tr.fault || (!is429 xhr.status && !is4xx xhr.status && is5xx xhr.status)
          subsegments :=
            [{ s0 with
                end_time := some endTime
                http := { s0.http with
                  response := some { status := xhr.status
                                     content_length := contentLengthOf xhr } }
                throttle := s0.throttle || is429 xhr.status
                error := s0.error || (!is429 xhr.status && is4xx xhr.status)
                fault := s0.fault ||
                  (!is429 xhr.status && !is4xx xhr.status && is5xx xhr.status) }] } := by
  by_cases b1 : is429 xhr.status <;>
    by_cases b2 : is4xx xhr.status <;>
    by_cases b3 : is5xx xhr.status <;>
    rcases hcl : xhr.contentLengthHeader with - | cls <;>
    simp only [loadUpdatedTrace, updateSub0, hs, b1, b2, b3, hcl, contentLengthOf,
      Option.bind, Bool.not_true, Bool.not_false, Bool.false_and, Bool.true_and,
      Bool.and_false, Bool.and_true, Bool.or_true, Bool.or_false, if_true, if_false,
      Bool.false_eq_true, ite_true, ite_false] <;>
    first
      | rfl
      | (rcases hpd : parseDecimal cls with - | cl <;> simp [hpd])

/-- Closed form of the network-error handler's trace update on a trace
with a single subsegment. -/
theorem errorUpdatedTrace_eq (tr : XRayTraceEvent) (s0 : Subsegment)
    (errorName errorMessage : String) (endTime : Nat) (hs : tr.subsegments = [s0]) :
    errorUpdatedTrace tr errorName errorMessage endTime =
      { tr with
          fault := true
          end_time := some endTime
          subsegments :=
            [{ s0 with
                end_time := some endTime
                fault := true
                cause := some { exceptions :=
                  [{ type := errorName, message := some errorMessage }] } }] } := by
  simp [errorUpdatedTrace, updateSub0, hs]

/-- Closed form of the abort/timeout handler's trace update on a trace
with a single subsegment: only the subsegment's `error` flag is set. -/
theorem detailsOnErrorTrace_eq (tr : XRayTraceEvent) (s0 : Subsegment)
    (errorName : String) (endTime : Nat) (hs : tr.subsegments = [s0]) :
    detailsOnErrorTrace tr errorName endTime =
      { tr with
          end_time := some endTime
          subsegments :=
            [{ s0 with
                end_time := some endTime
                error := true
                cause := some { exceptions := [{ type := errorName }] } }] } := by
  simp [detailsOnErrorTrace, updateSub0, hs]

/-- The trace created by `initializeTrace`: one fresh subsegment with the
request info, no response, no cause, and all flags unset. -/
theorem initializeTrace_trace (p : Plugin) (d : XhrDetails) (startTime : Nat)
    (traceId rootId subId : String) :
    (initializeTrace p d startTime traceId rootId subId).trace =
      some
        { name := p.config.logicalServiceName
          trace_id := traceId
          id := rootId
          start_time := startTime
          subsegments :=
            [{ id := subId
               name := requestInfoToHostname d.url
               start_time := startTime
               http := { request :=
                 { method := d.method, url := d.url, traced := true } } }] } := rfl

/-- A failing attempt leaves the stored state untouched: every failure
path of the loop body happens before any assignment. -/
theorem attemptOnce_error_eq (env : CognitoEnv) (n : Nat) (st : AuthState) (e : String)
    (h : (attemptOnce env n st).1 = .error e) :
    attemptOnce env n st = (.error e, st) := by
  unfold attemptOnce at h ⊢
  rcases hg : env.getId n with e1 | r1 <;> simp only [hg] at h ⊢
  · simp_all
  rcases ho : env.getOpenIdToken n r1 with e2 | r2 <;> simp only [ho] at h ⊢
  · simp_all
  rcases ha : env.assumeRoleWithWebIdentity n r2.Token with e3 | c <;> simp only [ha] at h ⊢
  · simp_all
  simp_all

/-- A successful attempt stores the credentials in memory and persists
them exactly when `localStorage.setItem` does not throw. -/
theorem attemptOnce_ok_state (env : CognitoEnv) (n : Nat) (st : AuthState) (c : Credentials)
    (h : (attemptOnce env n st).1 = .ok c) :
    (attemptOnce env n st).2.credentials = some c ∧
      (attemptOnce env n st).2.localStore =
        (if env.setItemThrows n then st.localStore else some (serializeCredentials c)) := by
  unfold attemptOnce at h ⊢
  rcases hg : env.getId n with e1 | r1 <;> simp only [hg] at h ⊢
  · simp_all
  rcases ho : env.getOpenIdToken n r1 with e2 | r2 <;> simp only [ho] at h ⊢
  · simp_all
  rcases ha : env.assumeRoleWithWebIdentity n r2.Token with e3 | c1 <;> simp only [ha] at h ⊢
  · simp_all
  simp only [Except.ok.injEq] at h
  subst h
  by_cases hs : env.setItemThrows n <;> simp [hs]

/-- C5: the anonymous credential provider runs the three-step exchange;
on any failure of any step the whole exchange is retried exactly once;
if the second attempt also fails, the error is thrown to the caller
after exactly two attempts, and the stored state (in-memory credentials
and persisted value) is unchanged. -/
theorem C5_retry_once_then_throw (env : CognitoEnv) (st : AuthState) (e1 e2 : String)
    (h1 : (attemptOnce env 0 st).1 = .error e1)
    (h2 : (attemptOnce env 1 st).1 = .error e2) :
    AnonymousCognitoCredentialsProvider env st = (.error e2, st, 2) := by
  have H1 := attemptOnce_error_eq env 0 st e1 h1
  have H2 := attemptOnce_error_eq env 1 st e2 h2
  simp only [AnonymousCognitoCredentialsProvider, providerLoop, H1, H2]

/-- Witness for C5 at a concrete always-failing environment. -/
theorem C5_retry_once_then_throw_witness :
    AnonymousCognitoCredentialsProvider envAllFail { credentials := none, localStore := none } =
      (.error "getId failed", { credentials := none, localStore := none }, 2) :=
  C5_retry_once_then_throw envAllFail { credentials := none, localStore := none }
    "getId failed" "getId failed" rfl rfl

/-- C9: on a successful exchange the provider returns after one attempt
with the new credentials, the in-memory value is updated to them, and
the local-storage value is updated unless the write throws, in which
case the error is swallowed and the old persisted value remains. -/
theorem C9_success_store (env : CognitoEnv) (st : AuthState) (c : Credentials)
    (h : (attemptOnce env 0 st).1 = .ok c) :
    AnonymousCognitoCredentialsProvider env st = (.ok c, (attemptOnce env 0 st).2, 1) ∧
      (attemptOnce env 0 st).2.credentials = some c ∧
      (attemptOnce env 0 st).2.localStore =
        (if env.setItemThrows 0 then st.localStore else some (serializeCredentials c)) := by
  refine ⟨?_, attemptOnce_ok_state env 0 st c h⟩
  rcases hA : attemptOnce env 0 st with ⟨res, st2⟩
  rw [hA] at h
  simp only at h
  subst h
  simp only [AnonymousCognitoCredentialsProvider, providerLoop, hA]

/-- `countHttp` distributes over append. -/
theorem countHttp_append (a b : List Recorded) :
    countHttp (a ++ b) = countHttp a + countHttp b := by
  simp [countHttp, List.filter_append]

/-- `countXray` distributes over append. -/
theorem countXray_append (a b : List Recorded) :
    countXray (a ++ b) = countXray a + countXray b := by
  simp [countXray, List.filter_append]

/-- Witness for C9 at a concrete all-succeeding environment. -/
theorem C9_success_store_witness :
    AnonymousCognitoCredentialsProvider envAllOk { credentials := none, localStore := none } =
        (.ok witnessCredentials,
          (attemptOnce envAllOk 0 { credentials := none, localStore := none }).2, 1) ∧
      (attemptOnce envAllOk 0 { credentials := none, localStore := none }).2.credentials =
        some witnessCredentials ∧
      (attemptOnce envAllOk 0 { credentials := none, localStore := none }).2.localStore =
        (if envAllOk.setItemThrows 0 then
            ({ credentials := none, localStore := none } : AuthState).localStore
          else
            some (serializeCredentials witnessCredentials)) :=
  C9_success_store envAllOk { credentials := none, localStore := none } witnessCredentials rfl

/-- C1 (counterexample to the claim as stated): a completed call need
not have emitted exactly one HTTP event. With `recordAllRequests`
disabled and a 200 response, the load handler of a tracked call emits no
HTTP event at all: the call is in flight beforehand, and after handling
the record is gone and nothing was recorded. -/
theorem C1_counterexample :
    mapGet cxState.xhrMap cxXhr.id = some cxDetails ∧
      (handleSignal cxPlugin .load cxXhr 5 cxState).recorded = [] ∧
      mapGet (handleSignal cxPlugin .load cxXhr 5 cxState).xhrMap cxXhr.id = none := by
  refine ⟨rfl, ?_, ?_⟩ <;> rfl

/-- C1 (amended): for every tracked completed call, only the first
completion signal is acted upon — handling deletes the call-state
record, so a later signal is a strict no-op — and after handling at most
one HTTP event and at most one trace event have been emitted for the
call. -/
theorem C1_first_signal_only (p : Plugin) (sig sig2 : XhrSignal) (xhr : Xhr)
    (e1 e2 : Nat) (st : PluginState) (d : XhrDetails) (tr : XRayTraceEvent)
    (hm : mapGet st.xhrMap xhr.id = some d) (ht : d.trace = some tr)
    (h0 : st.recorded = []) :
    mapGet (handleSignal p sig xhr e1 st).xhrMap xhr.id = none ∧
      countHttp (handleSignal p sig xhr e1 st).recorded ≤ 1 ∧
      countXray (handleSignal p sig xhr e1 st).recorded ≤ 1 ∧
      handleSignal p sig2 xhr e2 (handleSignal p sig xhr e1 st) =
        handleSignal p sig xhr e1 st := by
  have H := handleSignal_tracked_eq p sig xhr e1 st d tr hm ht
  have hnone : mapGet (handleSignal p sig xhr e1 st).xhrMap xhr.id = none := by
    rw [H]
    exact mapGet_mapDelete_self st.xhrMap xhr.id
  refine ⟨hnone, ?_, ?_, handleSignal_untracked p sig2 xhr e2 _ hnone⟩
  · rw [H]
    simp only [h0, List.nil_append, countHttp_append]
    split_ifs <;> simp [countHttp]
  · rw [H]
    simp only [h0, List.nil_append, countXray_append]
    split_ifs <;> simp [countXray]

/-- Witness for C1 (amended) at the concrete tracked call. -/
theorem C1_first_signal_only_witness :
    mapGet (handleSignal cxPlugin .load cxXhr 5 cxState).xhrMap cxXhr.id = none ∧
      countHttp (handleSignal cxPlugin .load cxXhr 5 cxState).recorded ≤ 1 ∧
      countXray (handleSignal cxPlugin .load cxXhr 5 cxState).recorded ≤ 1 ∧
      handleSignal cxPlugin .abort cxXhr 6 (handleSignal cxPlugin .load cxXhr 5 cxState) =
        handleSignal cxPlugin .load cxXhr 5 cxState :=
  C1_first_signal_only cxPlugin .load .abort cxXhr 5 6 cxState cxDetails _ rfl rfl rfl

/-- C4: on the error, abort, and timeout paths an HTTP event is always
emitted; on the load (response) path an HTTP event is emitted exactly
when `recordAllRequests` is set or the response status lies outside
[200,300). -/
theorem C4_http_emission_policy (p : Plugin) (sig : XhrSignal) (xhr : Xhr)
    (endTime : Nat) (st : PluginState) (d : XhrDetails) (tr : XRayTraceEvent)
    (hm : mapGet st.xhrMap xhr.id = some d) (ht : d.trace = some tr)
    (h0 : st.recorded = []) :
    (sig ≠ XhrSignal.load → countHttp (handleSignal p sig xhr endTime st).recorded = 1) ∧
      (sig = XhrSignal.load →
        (countHttp (handleSignal p sig xhr endTime st).recorded = 1 ↔
          (p.config.recordAllRequests = true ∨ ¬(200 ≤ xhr.status ∧ xhr.status < 300)))) := by
  have H := handleSignal_tracked_eq p sig xhr endTime st d tr hm ht
  rw [H]
  simp only [h0, List.nil_append, countHttp_append]
  constructor
  · intro hsig
    cases sig with
    | load => exact absurd rfl hsig
    | error => simp only [emitsHttp]; split_ifs <;> simp [countHttp]
    | abort => simp only [emitsHttp]; split_ifs <;> simp [countHttp]
    | timeout => simp only [emitsHttp]; split_ifs <;> simp [countHttp]
  · intro hsig
    subst hsig
    simp only [emitsHttp]
    constructor
    · intro hcount
      by_cases hr : p.config.recordAllRequests
      · exact Or.inl hr
      · refine Or.inr ?_
        by_cases hok : statusOk xhr.status
        · exfalso
          simp only [hr, hok, Bool.false_or, Bool.not_true, if_false] at hcount
          split_ifs at hcount <;> simp_all [countHttp]
        · simpa [statusOk] using hok
    · intro hdisj
      have hE : (p.config.recordAllRequests || !statusOk xhr.status) = true := by
        rcases hdisj with hr | hs
        · simp [hr]
        · simp [statusOk, hs]
      rw [if_pos hE]
      split_ifs <;> simp [countHttp]

/-- Witness for C4 at the concrete tracked call completing with 200. -/
theorem C4_http_emission_policy_witness :
    (XhrSignal.load ≠ XhrSignal.load →
        countHttp (handleSignal cxPlugin .load cxXhr 5 cxState).recorded = 1) ∧
      (XhrSignal.load = XhrSignal.load →
        (countHttp (handleSignal cxPlugin .load cxXhr 5 cxState).recorded = 1 ↔
          (cxPlugin.config.recordAllRequests = true ∨
            ¬(200 ≤ cxXhr.status ∧ cxXhr.status < 300)))) :=
  C4_http_emission_policy cxPlugin .load cxXhr 5 cxState cxDetails _ rfl rfl rfl

/-- C7: a trace event is recorded at completion exactly when the agent is
not synthetic, X-Ray tracing is enabled, and `getSession()` returned a
session with `record = true`; an undefined session or `record = false`
suppresses the trace event. -/
theorem C7_trace_event_gating (p : Plugin) (sig : XhrSignal) (xhr : Xhr)
    (endTime : Nat) (st : PluginState) (d : XhrDetails) (tr : XRayTraceEvent)
    (hm : mapGet st.xhrMap xhr.id = some d) (ht : d.trace = some tr)
    (h0 : st.recorded = []) :
    countXray (handleSignal p sig xhr endTime st).recorded =
      (if p.isSyntheticsUA = false ∧ p.contextConfig.enableXRay = true ∧
          p.getSession.map Session.record = some true then 1 else 0) := by
  have H := handleSignal_tracked_eq p sig xhr endTime st d tr hm ht
  rw [H]
  simp only [h0, List.nil_append, countXray_append]
  have hco : traceGate p = true ↔
      (p.isSyntheticsUA = false ∧ p.contextConfig.enableXRay = true ∧
        p.getSession.map Session.record = some true) := by
    cases hgs : p.getSession with
    | none =>
        simp [traceGate, Plugin.isTracingEnabled, Plugin.isSessionRecorded, hgs]
    | some s =>
        cases s with
        | mk r =>
            cases r <;>
              simp [traceGate, Plugin.isTracingEnabled, Plugin.isSessionRecorded, hgs]
  by_cases hg : traceGate p
  · rw [if_pos (hco.mp hg)]
    simp only [hg, if_true]
    split_ifs <;> simp [countXray]
  · rw [if_neg (fun hc => hg (hco.mpr hc))]
    split_ifs <;> simp_all [countXray]

/-- Witness for C7 at the concrete tracked call. -/
theorem C7_trace_event_gating_witness :
    countXray (handleSignal cxPlugin .load cxXhr 5 cxState).recorded =
      (if cxPlugin.isSyntheticsUA = false ∧ cxPlugin.contextConfig.enableXRay = true ∧
          cxPlugin.getSession.map Session.record = some true then 1 else 0) :=
  C7_trace_event_gating cxPlugin .load cxXhr 5 cxState cxDetails _ rfl rfl rfl

/-- C2: on the response path, starting from a fresh trace, `throttle` is
set exactly for status 429, else `error` exactly for 4xx, else `fault`
exactly for 5xx; the trace root and the single subsegment get identical
flags, and at most one of the three is set. -/
theorem C2_response_classification (tr : XRayTraceEvent) (s0 : Subsegment) (xhr : Xhr)
    (endTime : Nat) (hs : tr.subsegments = [s0])
    (hre : tr.error = false) (hrf : tr.fault = false) (hrt : tr.throttle = false)
    (hse : s0.error = false) (hsf : s0.fault = false) (hst : s0.throttle = false) :
    ∃ s1, (loadUpdatedTrace tr xhr endTime).subsegments = [s1] ∧
      s1.throttle = (loadUpdatedTrace tr xhr endTime).throttle ∧
      s1.error = (loadUpdatedTrace tr xhr endTime).error ∧
      s1.fault = (loadUpdatedTrace tr xhr endTime).fault ∧
      ((loadUpdatedTrace tr xhr endTime).throttle = true ↔ xhr.status = 429) ∧
      ((loadUpdatedTrace tr xhr endTime).error = true ↔
        (¬xhr.status = 429 ∧ 400 ≤ xhr.status ∧ xhr.status < 500)) ∧
      ((loadUpdatedTrace tr xhr endTime).fault = true ↔
        (500 ≤ xhr.status ∧ xhr.status < 600)) ∧
      ((if (loadUpdatedTrace tr xhr endTime).throttle then 1 else 0) +
          (if (loadUpdatedTrace tr xhr endTime).error then 1 else 0) +
          (if (loadUpdatedTrace tr xhr endTime).fault then 1 else 0) ≤ 1) := by
  rw [loadUpdatedTrace_eq tr s0 xhr endTime hs]
  refine ⟨_, rfl, ?_, ?_, ?_, ?_, ?_, ?_, ?_⟩ <;>
    simp only [hre, hrf, hrt, hse, hsf, hst, Bool.false_or, is429, is4xx, is5xx,
      Bool.and_eq_true, Bool.not_eq_true', beq_iff_eq, beq_eq_false_iff_ne, ne_eq,
      decide_eq_true_eq, decide_eq_false_iff_not] <;>
    first
      | rfl
      | omega
      | (split_ifs <;> omega)

/-- Witness for C2 at a fresh trace and a 429 response. -/
theorem C2_response_classification_witness :
    ∃ s1, (loadUpdatedTrace cxTrace cx429Xhr 5).subsegments = [s1] ∧
      s1.throttle = (loadUpdatedTrace cxTrace cx429Xhr 5).throttle ∧
      s1.error = (loadUpdatedTrace cxTrace cx429Xhr 5).error ∧
      s1.fault = (loadUpdatedTrace cxTrace cx429Xhr 5).fault ∧
      ((loadUpdatedTrace cxTrace cx429Xhr 5).throttle = true ↔ cx429Xhr.status = 429) ∧
      ((loadUpdatedTrace cxTrace cx429Xhr 5).error = true ↔
        (¬cx429Xhr.status = 429 ∧ 400 ≤ cx429Xhr.status ∧ cx429Xhr.status < 500)) ∧
      ((loadUpdatedTrace cxTrace cx429Xhr 5).fault = true ↔
        (500 ≤ cx429Xhr.status ∧ cx429Xhr.status < 600)) ∧
      ((if (loadUpdatedTrace cxTrace cx429Xhr 5).throttle then 1 else 0) +
          (if (loadUpdatedTrace cxTrace cx429Xhr 5).error then 1 else 0) +
          (if (loadUpdatedTrace cxTrace cx429Xhr 5).fault then 1 else 0) ≤ 1) :=
  C2_response_classification cxTrace cxSub cx429Xhr 5 rfl rfl rfl rfl rfl rfl rfl

/-- C3: when a tracked call ends in abort or timeout, the emitted trace's
subsegment has `error = true`, a cause whose exception type is the
taxonomy-specific name, and no `http.response` object. -/
theorem C3_abort_timeout_recording (p : Plugin) (xhr : Xhr) (endTime startTime : Nat)
    (st : PluginState) (d : XhrDetails) (traceId rootId subId : String)
    (hm : mapGet st.xhrMap xhr.id =
      some (initializeTrace p d startTime traceId rootId subId))
    (hsy : p.isSyntheticsUA = false) (hx : p.contextConfig.enableXRay = true)
    (hrec : p.getSession = some { record := true })
    (h0 : st.recorded = []) :
    (∃ trA sA rest, (handleSignal p .abort xhr endTime st).recorded = .xray trA :: rest ∧
        trA.subsegments = [sA] ∧ sA.error = true ∧
        sA.cause = some { exceptions := [{ type := "XMLHttpRequest abort" }] } ∧
        sA.http.response = none) ∧
      (∃ trT sT rest, (handleSignal p .timeout xhr endTime st).recorded = .xray trT :: rest ∧
        trT.subsegments = [sT] ∧ sT.error = true ∧
        sT.cause = some { exceptions := [{ type := "XMLHttpRequest timeout" }] } ∧
        sT.http.response = none) := by
  have hg : traceGate p = true := by
    simp [traceGate, Plugin.isTracingEnabled, Plugin.isSessionRecorded, hsy, hx, hrec]
  constructor
  · have H := handleSignal_tracked_eq p .abort xhr endTime st _ _ hm
      (initializeTrace_trace p d startTime traceId rootId subId)
    rw [H]
    simp only [h0, List.nil_append, hg, if_true, emitsHttp, sigTrace]
    rw [detailsOnErrorTrace_eq _ _ _ _ rfl]
    exact ⟨_, _, _, rfl, rfl, rfl, rfl, rfl⟩
  · have H := handleSignal_tracked_eq p .timeout xhr endTime st _ _ hm
      (initializeTrace_trace p d startTime traceId rootId subId)
    rw [H]
    simp only [h0, List.nil_append, hg, if_true, emitsHttp, sigTrace]
    rw [detailsOnErrorTrace_eq _ _ _ _ rfl]
    exact ⟨_, _, _, rfl, rfl, rfl, rfl, rfl⟩

/-- Witness for C3 at the concrete gated plugin and tracked call. -/
theorem C3_abort_timeout_recording_witness :
    (∃ trA sA rest, (handleSignal gwPlugin .abort cxXhr 5 gwState).recorded =
          .xray trA :: rest ∧
        trA.subsegments = [sA] ∧ sA.error = true ∧
        sA.cause = some { exceptions := [{ type := "XMLHttpRequest abort" }] } ∧
        sA.http.response = none) ∧
      (∃ trT sT rest, (handleSignal gwPlugin .timeout cxXhr 5 gwState).recorded =
          .xray trT :: rest ∧
        trT.subsegments = [sT] ∧ sT.error = true ∧
        sT.cause = some { exceptions := [{ type := "XMLHttpRequest timeout" }] } ∧
        sT.http.response = none) :=
  C3_abort_timeout_recording gwPlugin cxXhr 5 0 gwState
    { method := "GET", url := "https://aws.amazon.com/", async := true }
    "trace-1" "root-1" "sub-1" rfl rfl rfl rfl rfl

/-- C6: for every emitted trace, the single subsegment carries exactly
one of `http.response` (load path) or `cause` (error, abort, and timeout
paths), never both. -/
theorem C6_response_cause_exclusive (p : Plugin) (sig : XhrSignal) (xhr : Xhr)
    (endTime startTime : Nat) (st : PluginState) (d : XhrDetails)
    (traceId rootId subId : String)
    (hm : mapGet st.xhrMap xhr.id =
      some (initializeTrace p d startTime traceId rootId subId))
    (hsy : p.isSyntheticsUA = false) (hx : p.contextConfig.enableXRay = true)
    (hrec : p.getSession = some { record := true })
    (h0 : st.recorded = []) :
    ∃ trE sE rest, (handleSignal p sig xhr endTime st).recorded = .xray trE :: rest ∧
      trE.subsegments = [sE] ∧
      ((sE.http.response.isSome = true ∧ sE.cause = none) ∨
        (sE.http.response = none ∧ sE.cause.isSome = true)) := by
  have hg : traceGate p = true := by
    simp [traceGate, Plugin.isTracingEnabled, Plugin.isSessionRecorded, hsy, hx, hrec]
  have H := handleSignal_tracked_eq p sig xhr endTime st _ _ hm
    (initializeTrace_trace p d startTime traceId rootId subId)
  rw [H]
  simp only [h0, List.nil_append, hg, if_true, emitsHttp, sigTrace]
  cases sig with
  | load =>
      rw [loadUpdatedTrace_eq _ _ _ _ rfl]
      split_ifs <;> exact ⟨_, _, _, rfl, rfl, Or.inl ⟨rfl, rfl⟩⟩
  | error =>
      rw [errorUpdatedTrace_eq _ _ _ _ _ rfl]
      exact ⟨_, _, _, rfl, rfl, Or.inr ⟨rfl, rfl⟩⟩
  | abort =>
      rw [detailsOnErrorTrace_eq _ _ _ _ rfl]
      exact ⟨_, _, _, rfl, rfl, Or.inr ⟨rfl, rfl⟩⟩
  | timeout =>
      rw [detailsOnErrorTrace_eq _ _ _ _ rfl]
      exact ⟨_, _, _, rfl, rfl, Or.inr ⟨rfl, rfl⟩⟩

/-- Witness for C6 at the concrete gated plugin, load signal. -/
theorem C6_response_cause_exclusive_witness :
    ∃ trE sE rest, (handleSignal gwPlugin .load cxXhr 5 gwState).recorded =
        .xray trE :: rest ∧
      trE.subsegments = [sE] ∧
      ((sE.http.response.isSome = true ∧ sE.cause = none) ∨
        (sE.http.response = none ∧ sE.cause.isSome = true)) :=
  C6_response_cause_exclusive gwPlugin .load cxXhr 5 0 gwState
    { method := "GET", url := "https://aws.amazon.com/", async := true }
    "trace-1" "root-1" "sub-1" rfl rfl rfl rfl rfl

/-- C10: the network-error path records a cause exception carrying both
the type `XMLHttpRequest error` and a message derived from the status —
the status alone when `statusText` is empty, otherwise
`<status>: <statusText>` — while the abort and timeout paths record a
cause exception with a type only and no message. -/
theorem C10_cause_exception_shape (p : Plugin) (xhr : Xhr) (endTime startTime : Nat)
    (st : PluginState) (d : XhrDetails) (traceId rootId subId : String)
    (hm : mapGet st.xhrMap xhr.id =
      some (initializeTrace p d startTime traceId rootId subId))
    (hsy : p.isSyntheticsUA = false) (hx : p.contextConfig.enableXRay = true)
    (hrec : p.getSession = some { record := true })
    (h0 : st.recorded = []) :
    (∃ trE sE rest, (handleSignal p .error xhr endTime st).recorded = .xray trE :: rest ∧
        trE.subsegments = [sE] ∧
        sE.cause = some { exceptions :=
          [{ type := "XMLHttpRequest error"
             message := some (if xhr.statusText.isEmpty then toString xhr.status
               else toString xhr.status ++ ": " ++ xhr.statusText) }] }) ∧
      (∃ trA sA rest, (handleSignal p .abort xhr endTime st).recorded = .xray trA :: rest ∧
        trA.subsegments = [sA] ∧
        sA.cause = some { exceptions :=
          [{ type := "XMLHttpRequest abort", message := none }] }) ∧
      (∃ trT sT rest, (handleSignal p .timeout xhr endTime st).recorded = .xray trT :: rest ∧
        trT.subsegments = [sT] ∧
        sT.cause = some { exceptions :=
          [{ type := "XMLHttpRequest timeout", message := none }] }) := by
  have hg : traceGate p = true := by
    simp [traceGate, Plugin.isTracingEnabled, Plugin.isSessionRecorded, hsy, hx, hrec]
  refine ⟨?_, ?_, ?_⟩
  · have H := handleSignal_tracked_eq p .error xhr endTime st _ _ hm
      (initializeTrace_trace p d startTime traceId rootId subId)
    rw [H]
    simp only [h0, List.nil_append, hg, if_true, emitsHttp, sigTrace, xhrErrorMessage]
    rw [errorUpdatedTrace_eq _ _ _ _ _ rfl]
    exact ⟨_, _, _, rfl, rfl, rfl⟩
  · have H := handleSignal_tracked_eq p .abort xhr endTime st _ _ hm
      (initializeTrace_trace p d startTime traceId rootId subId)
    rw [H]
    simp only [h0, List.nil_append, hg, if_true, emitsHttp, sigTrace]
    rw [detailsOnErrorTrace_eq _ _ _ _ rfl]
    exact ⟨_, _, _, rfl, rfl, rfl⟩
  · have H := handleSignal_tracked_eq p .timeout xhr endTime st _ _ hm
      (initializeTrace_trace p d startTime traceId rootId subId)
    rw [H]
    simp only [h0, List.nil_append, hg, if_true, emitsHttp, sigTrace]
    rw [detailsOnErrorTrace_eq _ _ _ _ rfl]
    exact ⟨_, _, _, rfl, rfl, rfl⟩

/-- Witness for C10 at the concrete gated plugin and tracked call. -/
theorem C10_cause_exception_shape_witness :
    (∃ trE sE rest, (handleSignal gwPlugin .error cxXhr 5 gwState).recorded =
        .xray trE :: rest ∧
        trE.subsegments = [sE] ∧
        sE.cause = some { exceptions :=
          [{ type := "XMLHttpRequest error"
             message := some (if cxXhr.statusText.isEmpty then toString cxXhr.status
               else toString cxXhr.status ++ ": " ++ cxXhr.statusText) }] }) ∧
      (∃ trA sA rest, (handleSignal gwPlugin .abort cxXhr 5 gwState).recorded =
        .xray trA :: rest ∧
        trA.subsegments = [sA] ∧
        sA.cause = some { exceptions :=
          [{ type := "XMLHttpRequest abort", message := none }] }) ∧
      (∃ trT sT rest, (handleSignal gwPlugin .timeout cxXhr 5 gwState).recorded =
        .xray trT :: rest ∧
        trT.subsegments = [sT] ∧
        sT.cause = some { exceptions :=
          [{ type := "XMLHttpRequest timeout", message := none }] }) :=
  C10_cause_exception_shape gwPlugin cxXhr 5 0 gwState
    { method := "GET", url := "https://aws.amazon.com/", async := true }
    "trace-1" "root-1" "sub-1" rfl rfl rfl rfl rfl

/-- C8: on send, a trace header is injected exactly when the agent is not
synthetic, tracing is enabled, the header-injection configuration
matches the URL, and the session is recorded; at most one header is ever
set — `traceparent` when the W3C flag is on, `X-Amzn-Trace-Id`
otherwise, never both. -/
theorem C8_trace_header_injection (p : Plugin) (xhrId startTime : Nat)
    (traceId rootId subId : String) (st : PluginState) (d : XhrDetails)
    (hm : mapGet st.xhrMap xhrId = some d) :
    (sendWrapper p xhrId startTime traceId rootId subId st).headersSet.map Prod.fst =
      (if p.isSyntheticsUA = false ∧ p.contextConfig.enableXRay = true ∧
          isTraceIdHeaderEnabled d.url p.config.addXRayTraceIdHeader = true ∧
          p.getSession.map Session.record = some true then
        [if p.contextConfig.enableW3CTraceId then W3C_TRACEPARENT_HEADER_NAME
          else X_AMZN_TRACE_ID]
      else []) ∧
      (sendWrapper p xhrId startTime traceId rootId subId st).headersSet.length ≤ 1 := by
  have hrec : (p.getSession.map Session.record = some true) ↔ p.isSessionRecorded = true := by
    cases hgs : p.getSession with
    | none => simp [Plugin.isSessionRecorded, hgs]
    | some s => cases s with | mk r => cases r <;> simp [Plugin.isSessionRecorded, hgs]
  simp only [sendWrapper, hm, hrec]
  by_cases hsy : p.isSyntheticsUA <;>
    by_cases hx : p.contextConfig.enableXRay <;>
    by_cases hdr : isTraceIdHeaderEnabled d.url p.config.addXRayTraceIdHeader <;>
    by_cases hsr : p.isSessionRecorded <;>
    by_cases hw : p.contextConfig.enableW3CTraceId <;>
    simp_all [initializeTrace, Plugin.isTracingEnabled]

/-- Witness for C8: with the header-injection flag disabled no header is
set. -/
theorem C8_trace_header_injection_witness :
    (sendWrapper cxPlugin 0 0 "trace-1" "root-1" "sub-1" cxState).headersSet.map Prod.fst =
      (if cxPlugin.isSyntheticsUA = false ∧ cxPlugin.contextConfig.enableXRay = true ∧
          isTraceIdHeaderEnabled cxDetails.url cxPlugin.config.addXRayTraceIdHeader = true ∧
          cxPlugin.getSession.map Session.record = some true then
        [if cxPlugin.contextConfig.enableW3CTraceId then W3C_TRACEPARENT_HEADER_NAME
          else X_AMZN_TRACE_ID]
      else []) ∧
      (sendWrapper cxPlugin 0 0 "trace-1" "root-1" "sub-1" cxState).headersSet.length ≤ 1 :=
  C8_trace_header_injection cxPlugin 0 0 "trace-1" "root-1" "sub-1" cxState cxDetails rfl

end RumWeb
